import Mathlib

/-!
Verification development for the obsidian-weaklog-processor repository.

The repository advances a personal text entry through a five-stage workflow
(raw capture, cooldown, AI triage, AI-guided synthesis, publish).  This file
shallowly embeds the components relevant to the frozen claims:

- the triage response parser (TriageAnalyzer.parseTriageResponse and its
  fallback, src/unnamed/part_002);
- the synthesis guide response parser (SynthesisGuide.parseSynthesisResponse,
  src/src/llm/SynthesisGuide.ts);
- the provider retry loops (AnthropicProvider.callAPI in src/unnamed/part_001
  and OpenAIProvider.callAPI in src/src/llm/providers/OpenAIProvider.ts);
- the provider factory and delegation facade (LLMClient in src/src/main.ts);
- identifier generation (FileManager.generateWeaklogId, src/unnamed/part_006);
- the cooldown scheduler (CooldownManager, src/src/managers/CooldownManager.ts).

Modelling conventions:
- JavaScript values produced by JSON.parse are modelled by the inductive
  JsValue; the composition of JSON-substring extraction and JSON.parse is
  modelled as an Option JsValue input (none covers both a missing JSON object
  substring and a JSON.parse exception).
- Timestamps are modelled by their integer epoch-millisecond value.  A
  persisted date string that fails to parse (Date.parse yields NaN) is
  modelled as none in an Option Int field.
- Strings are sequences of Unicode code points; the JavaScript substring and
  length operations are modelled on code points.
- Network effects are modelled by injected outcome oracles: each attempt of a
  retry loop consumes an injected outcome (a success text or an error with a
  name and message), exactly as the source level catch blocks see them.
-/

/-! ## Basic string helpers (JavaScript semantics) -/

/-- Whitespace characters recognised by the JavaScript regex class \s and by
String.prototype.trim (the common ASCII subset). -/
def isJsWhitespace (c : Char) : Bool :=
  c = ' ' || c = '\t' || c = '\n' || c = '\r' || c = '\x0b' || c = '\x0c'

/-- JavaScript String.prototype.trim on the character-list level. -/
def jsTrimList (cs : List Char) : List Char :=
  ((cs.dropWhile isJsWhitespace).reverse.dropWhile isJsWhitespace).reverse

/-- JavaScript String.prototype.trim. -/
def jsTrim (s : String) : String :=
  String.mk (jsTrimList s.toList)

/-- Decides whether pat occurs at the start of l (regex anchored match). -/
def listStarts : List Char → List Char → Bool
  | [], _ => true
  | _ :: _, [] => false
  | a :: as, b :: bs => a = b && listStarts as bs

/-- Decides whether pat occurs anywhere in l, as in
String.prototype.includes. -/
def listInfix (pat : List Char) : List Char → Bool
  | [] => listStarts pat []
  | c :: cs => listStarts pat (c :: cs) || listInfix pat cs

/-- JavaScript String.prototype.includes(pat). -/
def strContains (s pat : String) : Bool :=
  listInfix pat.toList s.toList

/-- JavaScript String.prototype.startsWith(pre). -/
def strStarts (s pre : String) : Bool :=
  listStarts pre.toList s.toList

/-- JavaScript String.prototype.toLowerCase (ASCII case folding; the tags
and tones this code base lowercases are ASCII). -/
def jsToLower (s : String) : String :=
  String.mk (s.toList.map Char.toLower)

/-! ## JavaScript value model -/

/-- A JavaScript value as produced by JSON.parse.  Numbers are modelled as
integers (no claim depends on fractional values). -/
inductive JsValue where
  | jsNull  : JsValue
  | bool    : Bool → JsValue
  | num     : Int → JsValue
  | str     : String → JsValue
  | arr     : List JsValue → JsValue
  | obj     : List (String × JsValue) → JsValue
deriving Repr

/-- Property access v.k on a JavaScript value: none models undefined.  For
objects, JSON.parse keeps the last occurrence of a duplicated key, hence the
lookup on the reversed field list.  Member access on primitives yields
undefined for the property names used by this code base. -/
def getMember : JsValue → String → Option JsValue
  | JsValue.obj fields, k => List.lookup k fields.reverse
  | _, _ => none

/-- Optional chaining access o?.k where o itself may be undefined. -/
def getMemberOpt (o : Option JsValue) (k : String) : Option JsValue :=
  o.bind (fun v => getMember v k)

/-- JavaScript truthiness of a possibly-undefined value. -/
def truthy : Option JsValue → Bool
  | none => false
  | some JsValue.jsNull => false
  | some (JsValue.bool b) => b
  | some (JsValue.num n) => n ≠ 0
  | some (JsValue.str s) => s ≠ ""
  | some (JsValue.arr _) => true
  | some (JsValue.obj _) => true

/-! ## Triage evaluator (TriageAnalyzer, src/unnamed/part_002)

Embeds parseTriageResponse (lines 147-194), validateCheckResult (202-207),
calculateRecommendation (216-220) and createFallbackResult (229-247). -/

/-- One named criterion check: pass flag plus human-readable reason. -/
structure CheckResult where
  pass : Bool
  reason : String
deriving Repr, DecidableEq

/-- The four named criterion checks of a TriageResult. -/
structure TriageChecks where
  hasSpecifics : CheckResult
  canBeCorePhrase : CheckResult
  isTransferable : CheckResult
  isNonHarmful : CheckResult
deriving Repr, DecidableEq

/-- Triage recommendation values. -/
inductive Recommendation where
  | adopt | review | reject
deriving Repr, DecidableEq

/-- Evaluator output for one entry. -/
structure TriageResult where
  checks : TriageChecks
  score : Nat
  recommendation : Recommendation
  coreQuestion : String
  timestamp : String
deriving Repr, DecidableEq

/-- Count of true pass values among the four checks. -/
def countPassed (c : TriageChecks) : Nat :=
  c.hasSpecifics.pass.toNat + c.canBeCorePhrase.pass.toNat +
  c.isTransferable.pass.toNat + c.isNonHarmful.pass.toNat

/-- TriageAnalyzer.validateCheckResult: check?.pass === true for the flag and
a typeof string test for the reason. -/
def validateCheckResult (check : Option JsValue) : CheckResult :=
  { pass := match getMemberOpt check "pass" with
      | some (JsValue.bool true) => true
      | _ => false,
    reason := match getMemberOpt check "reason" with
      | some (JsValue.str s) => s
      | _ => "No reason provided" }

/-- TriageAnalyzer.calculateRecommendation: 4 adopt, 2-3 review, 0-1
reject. -/
def calculateRecommendation (score : Nat) : Recommendation :=
  if score = 4 then Recommendation.adopt
  else if score ≥ 2 then Recommendation.review
  else Recommendation.reject

/-- TriageAnalyzer.createFallbackResult: the conservative result returned on
any parse or validation failure.  The core question is the first 37 code
points of the original content followed by an ellipsis. -/
def createFallbackResult (content ts : String) : TriageResult :=
  { checks :=
      { hasSpecifics := { pass := false, reason := "Analysis failed - please review" },
        canBeCorePhrase := { pass := false, reason := "Analysis failed - please review" },
        isTransferable := { pass := false, reason := "Analysis failed - please review" },
        isNonHarmful := { pass := true, reason := "Assumed safe" } },
    score := 1,
    recommendation := Recommendation.review,
    coreQuestion := content.take 37 ++ "...",
    timestamp := ts }

/-- Successful branch of parseTriageResponse: builds the four checks from the
checks member, recomputes the score as the count of passed checks, derives the
recommendation from that score, and truncates the core question to 40 code
points.  Any score or recommendation member of the parsed value is never
read. -/
def buildTriageResult (checksVal : Option JsValue) (coreQ ts : String) : TriageResult :=
  let checks : TriageChecks :=
    { hasSpecifics := validateCheckResult (getMemberOpt checksVal "hasSpecifics"),
      canBeCorePhrase := validateCheckResult (getMemberOpt checksVal "canBeCorePhrase"),
      isTransferable := validateCheckResult (getMemberOpt checksVal "isTransferable"),
      isNonHarmful := validateCheckResult (getMemberOpt checksVal "isNonHarmful") }
  { checks := checks,
    score := countPassed checks,
    recommendation := calculateRecommendation (countPassed checks),
    coreQuestion := coreQ.take 40,
    timestamp := ts }

/-- TriageAnalyzer.parseTriageResponse.  The Option JsValue input is the
combined result of the JSON-substring extraction and JSON.parse; none covers
both a missing JSON object substring and invalid JSON.  The source throws on
a falsy checks or coreQuestion member and also lands in the catch block when
coreQuestion is truthy but not a string (substring is then not a function);
every such path returns the fallback. -/
def parseTriageResponse (j : Option JsValue) (content ts : String) : TriageResult :=
  match j with
  | none => createFallbackResult content ts
  | some v =>
    if truthy (getMember v "checks") then
      match getMember v "coreQuestion" with
      | some (JsValue.str s) =>
        if s = "" then createFallbackResult content ts
        else buildTriageResult (getMember v "checks") s ts
      | some _ => createFallbackResult content ts
      | none => createFallbackResult content ts
    else createFallbackResult content ts

/-- The condition under which parseTriageResponse takes its successful branch
rather than returning the fallback. -/
def triageParseOk (j : Option JsValue) : Bool :=
  match j with
  | none => false
  | some v =>
    truthy (getMember v "checks") &&
    (match getMember v "coreQuestion" with
     | some (JsValue.str s) => s ≠ ""
     | _ => false)

/-! ## Synthesis guide generator (SynthesisGuide, src/src/llm/SynthesisGuide.ts)

Embeds parseSynthesisResponse (lines 194-246), validateTone (254-262),
createFallbackGuide (271-279) and getFallbackQuestions (57-73). -/

/-- Response language selector (ResponseLanguage in src/types). -/
inductive ResponseLanguage where
  | english | japanese
deriving Repr, DecidableEq

/-- Generator output: 3-5 deepening questions plus a suggested tone. -/
structure SynthesisGuideResult where
  questions : List String
  suggestedTone : String
  timestamp : String
deriving Repr, DecidableEq

/-- getFallbackQuestions: the fixed language-appropriate question set used
when parsing fails. -/
def getFallbackQuestions (language : ResponseLanguage) : List String :=
  match language with
  | ResponseLanguage.japanese =>
    ["この経験が示す普遍的なパターンや真実は何ですか？",
     "同じような状況に直面している他の人は、この洞察からどのような恩恵を受けるでしょうか？",
     "より深く探求したい問いは何ですか？",
     "もしこれが未来の自分へのレッスンだとしたら、それは何でしょうか？"]
  | ResponseLanguage.english =>
    ["What universal pattern or truth does this experience reveal?",
     "How might others facing similar situations benefit from this insight?",
     "What question would you want to explore more deeply?",
     "If this were a lesson for your future self, what would it be?"]

/-- SynthesisGuide.createFallbackGuide: fallback questions with tone
reflective. -/
def createFallbackGuide (language : ResponseLanguage) (ts : String) : SynthesisGuideResult :=
  { questions := getFallbackQuestions language,
    suggestedTone := "reflective",
    timestamp := ts }

/-- The anchored regex replace of a leading numeric or dash list marker,
q.replace with pattern digits dot whitespace, or dash whitespace, applied
once at the start of the string. -/
def stripListMarker (cs : List Char) : List Char :=
  let digits := cs.takeWhile Char.isDigit
  if digits.length > 0 then
    match cs.drop digits.length with
    | '.' :: rest => rest.dropWhile isJsWhitespace
    | _ => cs
  else
    match cs with
    | '-' :: rest => rest.dropWhile isJsWhitespace
    | _ => cs

/-- Cleaning step of parseSynthesisResponse: non-strings become null and are
dropped; strings have a leading list marker removed and are trimmed; empty
results are dropped. -/
def cleanQuestions (xs : List JsValue) : List String :=
  (xs.filterMap (fun q =>
    match q with
    | JsValue.str s => some (String.mk (jsTrimList (stripListMarker s.toList)))
    | _ => none)).filter (fun s => s ≠ "")

/-- SynthesisGuide.validateTone: lowercased membership in the fixed tone
enum, defaulting to reflective. -/
def validateTone (tone : Option JsValue) : String :=
  match tone with
  | some (JsValue.str s) =>
    if ["reflective", "analytical", "exploratory"].contains (jsToLower s)
    then jsToLower s else "reflective"
  | _ => "reflective"

/-- SynthesisGuide.parseSynthesisResponse.  The Option JsValue input is the
combined result of JSON-substring extraction and JSON.parse.  Requires a
questions array of raw length 3-5; cleans each entry; requires at least 3
survivors; takes at most 5; any failure yields the fallback guide. -/
def parseSynthesisResponse (j : Option JsValue) (language : ResponseLanguage)
    (ts : String) : SynthesisGuideResult :=
  match j with
  | none => createFallbackGuide language ts
  | some v =>
    match getMember v "questions" with
    | some (JsValue.arr xs) =>
      if xs.length < 3 || xs.length > 5 then createFallbackGuide language ts
      else
        let questions := cleanQuestions xs
        if questions.length < 3 then createFallbackGuide language ts
        else
          { questions := questions.take 5,
            suggestedTone := validateTone (getMember v "suggestedTone"),
            timestamp := ts }
    | _ => createFallbackGuide language ts

/-- The condition under which parseSynthesisResponse takes its successful
branch rather than returning the fallback guide. -/
def synthesisParseOk (j : Option JsValue) : Bool :=
  match j with
  | none => false
  | some v =>
    match getMember v "questions" with
    | some (JsValue.arr xs) =>
      decide (3 ≤ xs.length) && decide (xs.length ≤ 5) &&
      decide (3 ≤ (cleanQuestions xs).length)
    | _ => false

/-! ## Provider adapters: retry loop (src/unnamed/part_001 AnthropicProvider,
src/src/llm/providers/OpenAIProvider.ts, GeminiProvider in
src/unnamed/part_007, OllamaProvider in src/unnamed/part_001)

Every adapter callAPI runs a for-loop over attempts 1..3.  Each attempt
consumes one injected outcome: the success text or the error (name and
message) observed by the catch block.  The catch block classifies the error
by message substrings and either rethrows a fixed user-facing message
immediately or sleeps for a backoff delay and retries, throwing a terminal
message when the attempt was the last.  Credential sanitisation of the
passed-through message (a regex redaction) is modelled as the identity, as no
claim depends on it. -/

/-- Outcome of one attempt as seen by the catch block: the resolved text or
an error with its name and message. -/
inductive Outcome where
  | success : String → Outcome
  | failure : (name : String) → (message : String) → Outcome

/-- Result of a whole callAPI invocation: the returned text or the thrown
message, together with the backoff delays slept (in order, in
milliseconds) and the number of attempts made. -/
inductive CallResult where
  | ok : (text : String) → (delays : List Nat) → (attempts : Nat) → CallResult
  | err : (message : String) → (delays : List Nat) → (attempts : Nat) → CallResult
deriving Repr, DecidableEq

/-- Number of attempts made by a call. -/
def CallResult.attemptsMade : CallResult → Nat
  | CallResult.ok _ _ a => a
  | CallResult.err _ _ a => a

/-- Backoff delays slept during a call. -/
def CallResult.delaysOf : CallResult → List Nat
  | CallResult.ok _ d _ => d
  | CallResult.err _ d _ => d

/-- What a catch block decides to do with one classified failure. -/
inductive RetryAction where
  | stop : (message : String) → RetryAction
  | backoff : (delay : Nat → Nat) → (exhaustMessage : String) → RetryAction

/-- The shared retry loop shape: attempts run while fuel lasts (fuel is
maxRetries minus attempts already made); a stop action throws immediately, a
backoff action sleeps delay(attempt) and retries, or throws its terminal
message when the attempt was the last.  The fuel-zero case mirrors the
unreachable throw after the loop. -/
def callAPIFrom (react : String → String → RetryAction) (outcomes : Nat → Outcome) :
    Nat → Nat → List Nat → CallResult
  | attempt, 0, delays => CallResult.err "API call failed: Maximum retries exceeded" delays (attempt - 1)
  | attempt, fuel + 1, delays =>
    match outcomes attempt with
    | Outcome.success t => CallResult.ok t delays attempt
    | Outcome.failure nm msg =>
      match react nm msg with
      | RetryAction.stop m => CallResult.err m delays attempt
      | RetryAction.backoff delay exhaustMessage =>
        if fuel = 0 then CallResult.err exhaustMessage delays attempt
        else callAPIFrom react outcomes (attempt + 1) fuel (delays ++ [delay attempt])

/-- Rate limit backoff: baseDelay times 2 to the attempt, doubled. -/
def rateLimitDelay (baseDelay attempt : Nat) : Nat := baseDelay * 2 ^ attempt * 2

/-- Standard backoff: baseDelay times 2 to the attempt minus one. -/
def standardDelay (baseDelay attempt : Nat) : Nat := baseDelay * 2 ^ (attempt - 1)

/-- Anthropic auth classification: message includes 401 or authentication. -/
def anthropicIsAuth (msg : String) : Bool :=
  strContains msg "401" || strContains msg "authentication"

/-- Anthropic rate limit classification: message includes 429 or rate
limit. -/
def anthropicIsRateLimit (msg : String) : Bool :=
  strContains msg "429" || strContains msg "rate limit"

/-- Timeout classification shared by the cloud adapters: message includes
timeout. -/
def isTimeoutMessage (msg : String) : Bool :=
  strContains msg "timeout"

/-- The catch block of AnthropicProvider.callAPI (src/unnamed/part_001 lines
848-892). -/
def anthropicReact (_nm msg : String) : RetryAction :=
  if anthropicIsAuth msg then
    RetryAction.stop "Invalid API key. Please check your Anthropic API key in settings."
  else if anthropicIsRateLimit msg then
    RetryAction.backoff (rateLimitDelay 1000) "Rate limit exceeded. Please try again later."
  else if isTimeoutMessage msg then
    RetryAction.backoff (standardDelay 1000) "API request timed out. Please check your connection and try again."
  else
    RetryAction.backoff (standardDelay 1000) ("API call failed after 3 attempts: " ++ msg)

/-- OpenAI auth classification: message includes 401, authentication or
invalid_api_key. -/
def openaiIsAuth (msg : String) : Bool :=
  strContains msg "401" || strContains msg "authentication" || strContains msg "invalid_api_key"

/-- OpenAI rate limit classification: message includes 429 or rate_limit. -/
def openaiIsRateLimit (msg : String) : Bool :=
  strContains msg "429" || strContains msg "rate_limit"

/-- The catch block of OpenAIProvider.callAPI
(src/src/llm/providers/OpenAIProvider.ts lines 138-187). -/
def openaiReact (_nm msg : String) : RetryAction :=
  if openaiIsAuth msg then
    RetryAction.stop "Invalid API key. Please check your OpenAI API key in settings."
  else if openaiIsRateLimit msg then
    RetryAction.backoff (rateLimitDelay 1000) "Rate limit exceeded. Please try again later."
  else if isTimeoutMessage msg then
    RetryAction.backoff (standardDelay 1000) "API request timed out. Please check your connection and try again."
  else if strContains msg "insufficient_quota" then
    RetryAction.stop "OpenAI quota exceeded. Please check your billing settings."
  else
    RetryAction.backoff (standardDelay 1000) ("API call failed after 3 attempts: " ++ msg)

/-- Gemini auth classification. -/
def geminiIsAuth (msg : String) : Bool :=
  strContains msg "401" || strContains msg "403" ||
  strContains msg "API_KEY_INVALID" || strContains msg "authentication"

/-- Gemini rate limit classification. -/
def geminiIsRateLimit (msg : String) : Bool :=
  strContains msg "429" || strContains msg "RESOURCE_EXHAUSTED" || strContains msg "rate limit"

/-- The catch block of GeminiProvider.callAPI (src/unnamed/part_007). -/
def geminiReact (_nm msg : String) : RetryAction :=
  if geminiIsAuth msg then
    RetryAction.stop "Invalid API key. Please check your Gemini API key in settings."
  else if geminiIsRateLimit msg then
    RetryAction.backoff (rateLimitDelay 1000) "Rate limit exceeded. Please try again later."
  else if isTimeoutMessage msg then
    RetryAction.backoff (standardDelay 1000) "API request timed out. Please check your connection and try again."
  else if strContains msg "quota" || strContains msg "QUOTA_EXCEEDED" then
    RetryAction.stop "Gemini quota exceeded. Please check your billing settings."
  else if strContains msg "SAFETY" || strContains msg "blocked" then
    RetryAction.stop "Content was blocked by Gemini safety filters. Please try different input."
  else
    RetryAction.backoff (standardDelay 1000) ("API call failed after 3 attempts: " ++ msg)

/-- The catch block of OllamaProvider.callAPI (src/unnamed/part_001): an
AbortError is the timeout class (base delay 2000), fetch failures raise a
connection message immediately, a model-not-found error is rethrown, anything
else retries with standard backoff. -/
def ollamaReact (endpoint : String) (nm msg : String) : RetryAction :=
  if nm = "AbortError" then
    RetryAction.backoff (standardDelay 2000) "Request timed out. Your local model may be too slow or overloaded."
  else if strContains msg "Failed to fetch" || strContains msg "NetworkError" || strContains msg "fetch failed" then
    RetryAction.stop ("Cannot connect to Ollama server at " ++ endpoint ++ ". Is Ollama running?")
  else if strContains msg "Model" && strContains msg "not found" then
    RetryAction.stop msg
  else
    RetryAction.backoff (standardDelay 2000) ("API call failed after 3 attempts: " ++ msg)

/-- AnthropicProvider.callAPI driven by an injected outcome sequence. -/
def anthropicCallAPI (outcomes : Nat → Outcome) : CallResult :=
  callAPIFrom anthropicReact outcomes 1 3 []

/-- OpenAIProvider.callAPI driven by an injected outcome sequence. -/
def openaiCallAPI (outcomes : Nat → Outcome) : CallResult :=
  callAPIFrom openaiReact outcomes 1 3 []

/-- GeminiProvider.callAPI driven by an injected outcome sequence. -/
def geminiCallAPI (outcomes : Nat → Outcome) : CallResult :=
  callAPIFrom geminiReact outcomes 1 3 []

/-- OllamaProvider.callAPI driven by an injected outcome sequence. -/
def ollamaCallAPI (endpoint : String) (outcomes : Nat → Outcome) : CallResult :=
  callAPIFrom (ollamaReact endpoint) outcomes 1 3 []

/-! ## Provider construction and facade (LLMClient, src/src/main.ts lines
584-705)

The facade holds one adapter and forwards every operation to it.  The
adapter state is its configuration plus whether its client has been
created. -/

/-- One constructed adapter: the configuration it was built from plus its
ready flag (client not null, or the Ollama initialized flag). -/
inductive Provider where
  | anthropic : (apiKey model : String) → (ready : Bool) → Provider
  | openai : (apiKey model : String) → (ready : Bool) → Provider
  | gemini : (apiKey model : String) → (ready : Bool) → Provider
  | ollama : (endpoint model : String) → (ready : Bool) → Provider
deriving Repr, DecidableEq

/-- The client facade: holds exactly the chosen adapter. -/
structure LLMClient where
  provider : Provider
deriving Repr, DecidableEq

/-- Configuration blob handed to the factory (ProviderConfig in
ILLMProvider). -/
structure ProviderConfig where
  apiKey : Option String
  endpoint : Option String
  model : String

/-- The OllamaProvider constructor removes one trailing slash from the
endpoint. -/
def stripTrailingSlash (s : String) : String :=
  if s.endsWith "/" then s.dropRight 1 else s

/-- LLMClient.createFromConfig (src/src/main.ts lines 584-626): selects the
adapter by the lowercased provider-type tag; the cloud adapters require a
truthy apiKey, Ollama requires a truthy endpoint; any other tag is an
unknown-provider error. -/
def createFromConfig (providerType : String) (config : ProviderConfig) :
    Except String LLMClient :=
  let t := jsToLower providerType
  if t = "anthropic" then
    match config.apiKey with
    | some k =>
      if k = "" then Except.error "Anthropic provider requires API key"
      else Except.ok { provider := Provider.anthropic k config.model false }
    | none => Except.error "Anthropic provider requires API key"
  else if t = "openai" then
    match config.apiKey with
    | some k =>
      if k = "" then Except.error "OpenAI provider requires API key"
      else Except.ok { provider := Provider.openai k config.model false }
    | none => Except.error "OpenAI provider requires API key"
  else if t = "gemini" then
    match config.apiKey with
    | some k =>
      if k = "" then Except.error "Gemini provider requires API key"
      else Except.ok { provider := Provider.gemini k config.model false }
    | none => Except.error "Gemini provider requires API key"
  else if t = "ollama" then
    match config.endpoint with
    | some e =>
      if e = "" then Except.error "Ollama provider requires endpoint"
      else Except.ok { provider := Provider.ollama (stripTrailingSlash e) config.model false }
    | none => Except.error "Ollama provider requires endpoint"
  else Except.error ("Unknown provider type: " ++ providerType)

/-- Modelled approximation of the host WHATWG URL constructor used by
OllamaProvider: accepts a string with an ASCII-alpha-led scheme followed by a
colon.  No claim depends on its exact boundary. -/
def jsUrlCanParse (s : String) : Bool :=
  match s.toList with
  | [] => false
  | c :: rest =>
    c.isAlpha &&
    (match rest.dropWhile (fun d => d.isAlphanum || d = '+' || d = '-' || d = '.') with
     | ':' :: _ => true
     | _ => false)

/-- Adapter client creation (the per-provider method called before API use):
validates that the required credential or endpoint is non-empty, marks the
adapter ready.  Ollama additionally requires the endpoint to parse as a
URL. -/
def Provider.initClient : Provider → Except String Provider
  | Provider.anthropic k m _ =>
    if k = "" || jsTrim k = "" then Except.error "API key is required"
    else Except.ok (Provider.anthropic k m true)
  | Provider.openai k m _ =>
    if k = "" || jsTrim k = "" then Except.error "API key is required"
    else Except.ok (Provider.openai k m true)
  | Provider.gemini k m _ =>
    if k = "" || jsTrim k = "" then Except.error "API key is required"
    else Except.ok (Provider.gemini k m true)
  | Provider.ollama e m _ =>
    if e = "" || jsTrim e = "" then Except.error "Endpoint is required"
    else if jsUrlCanParse e then Except.ok (Provider.ollama e m true)
    else Except.error ("Invalid Ollama endpoint URL: " ++ e)

/-- Adapter callAPI dispatch: each adapter runs its own retry loop. -/
def Provider.callAPIWith (outcomes : Nat → Outcome) : Provider → CallResult
  | Provider.anthropic _ _ _ => anthropicCallAPI outcomes
  | Provider.openai _ _ _ => openaiCallAPI outcomes
  | Provider.gemini _ _ _ => geminiCallAPI outcomes
  | Provider.ollama e _ _ => ollamaCallAPI e outcomes

/-- Adapter testConnection with one injected outcome: a success yields true,
a failure is classified to a user-actionable message (never a silent
false). -/
def Provider.testConnectionWith (outcome : Outcome) : Provider → Except String Bool
  | Provider.anthropic _ _ _ =>
    match outcome with
    | Outcome.success _ => Except.ok true
    | Outcome.failure _ msg =>
      if anthropicIsAuth msg then Except.error "Invalid API key. Please check your Anthropic API key."
      else if anthropicIsRateLimit msg then Except.error "Rate limit exceeded. Please wait a moment and try again."
      else if strContains msg "network" || strContains msg "ENOTFOUND" then Except.error "Network error. Please check your internet connection."
      else Except.error ("Connection test failed: " ++ msg)
  | Provider.openai _ _ _ =>
    match outcome with
    | Outcome.success _ => Except.ok true
    | Outcome.failure _ msg =>
      if openaiIsAuth msg then Except.error "Invalid API key. Please check your OpenAI API key."
      else if openaiIsRateLimit msg then Except.error "Rate limit exceeded. Please wait a moment and try again."
      else if strContains msg "insufficient_quota" then Except.error "OpenAI quota exceeded. Please check your billing settings."
      else if strContains msg "network" || strContains msg "ENOTFOUND" then Except.error "Network error. Please check your internet connection."
      else Except.error ("Connection test failed: " ++ msg)
  | Provider.gemini _ _ _ =>
    match outcome with
    | Outcome.success _ => Except.ok true
    | Outcome.failure _ msg =>
      if geminiIsAuth msg then Except.error "Invalid API key. Please check your Gemini API key."
      else if geminiIsRateLimit msg then Except.error "Rate limit exceeded. Please wait a moment and try again."
      else if strContains msg "quota" || strContains msg "QUOTA_EXCEEDED" then Except.error "Gemini quota exceeded. Please check your billing settings."
      else if strContains msg "network" || strContains msg "ENOTFOUND" then Except.error "Network error. Please check your internet connection."
      else Except.error ("Connection test failed: " ++ msg)
  | Provider.ollama e _ _ =>
    match outcome with
    | Outcome.success _ => Except.ok true
    | Outcome.failure _ msg =>
      if strContains msg "Failed to fetch" || strContains msg "NetworkError" || strContains msg "fetch failed" then
        Except.error ("Cannot connect to Ollama server at " ++ e ++ ". Please ensure Ollama is running.")
      else if strContains msg "Model" && strContains msg "not found" then Except.error msg
      else Except.error ("Connection test failed: " ++ msg)

/-- Adapter model enumeration: the cloud adapters return static lists, Ollama
fetches live and falls back to a static list when the fetch fails (the fetch
result is injected as fetched). -/
def Provider.availableModels (fetched : Option (List String)) : Provider → List String
  | Provider.anthropic _ _ _ =>
    ["claude-3-5-sonnet-20241022", "claude-3-5-sonnet-20240620",
     "claude-3-opus-20240229", "claude-3-sonnet-20240229", "claude-3-haiku-20240307"]
  | Provider.openai _ _ _ =>
    ["gpt-5.2", "gpt-5", "gpt-5-mini", "gpt-4-turbo-preview", "gpt-4", "gpt-3.5-turbo"]
  | Provider.gemini _ _ _ =>
    ["gemini-3-pro", "gemini-3-flash", "gemini-2.0-flash",
     "gemini-1.5-pro", "gemini-1.5-flash", "gemini-pro", "gemini-pro-vision"]
  | Provider.ollama _ _ _ =>
    match fetched with
    | some models => models
    | none => ["llama2", "llama2:13b", "mistral", "mixtral", "codellama", "phi"]

/-- Adapter isInitialized: the ready flag. -/
def Provider.isReady : Provider → Bool
  | Provider.anthropic _ _ r => r
  | Provider.openai _ _ r => r
  | Provider.gemini _ _ r => r
  | Provider.ollama _ _ r => r

/-- Adapter getModel. -/
def Provider.modelOf : Provider → String
  | Provider.anthropic _ m _ => m
  | Provider.openai _ m _ => m
  | Provider.gemini _ m _ => m
  | Provider.ollama _ m _ => m

/-- Adapter setModel. -/
def Provider.withModel : Provider → String → Provider
  | Provider.anthropic k _ r, m => Provider.anthropic k m r
  | Provider.openai k _ r, m => Provider.openai k m r
  | Provider.gemini k _ r, m => Provider.gemini k m r
  | Provider.ollama e _ r, m => Provider.ollama e m r

/-- Facade delegation (src/src/main.ts lines 636-695): each operation
forwards to the held adapter; none of them inspects which adapter it is. -/
def LLMClient.initClient (c : LLMClient) : Except String LLMClient :=
  (c.provider.initClient).map (fun p => { provider := p })

/-- Facade callAPI delegation. -/
def LLMClient.callAPIWith (outcomes : Nat → Outcome) (c : LLMClient) : CallResult :=
  c.provider.callAPIWith outcomes

/-- Facade testConnection delegation. -/
def LLMClient.testConnectionWith (outcome : Outcome) (c : LLMClient) : Except String Bool :=
  c.provider.testConnectionWith outcome

/-- Facade getAvailableModels delegation. -/
def LLMClient.availableModels (fetched : Option (List String)) (c : LLMClient) : List String :=
  c.provider.availableModels fetched

/-- Facade isInitialized delegation. -/
def LLMClient.isReady (c : LLMClient) : Bool :=
  c.provider.isReady

/-- Facade getModel delegation. -/
def LLMClient.modelOf (c : LLMClient) : String :=
  c.provider.modelOf

/-- Facade setModel delegation. -/
def LLMClient.withModel (c : LLMClient) (m : String) : LLMClient :=
  { provider := c.provider.withModel m }

/-! ## Entry store identifier generation (FileManager.generateWeaklogId,
src/unnamed/part_006 lines 40-83)

The vault is modelled as the list of its markdown files (path and basename);
adapter.exists is membership of a path in that list.  The current calendar
date is injected as its YYYY-MM-DD string. -/

/-- A markdown file of the vault as seen by the Obsidian API. -/
structure MdFile where
  path : String
  basename : String
deriving Repr, DecidableEq

/-- Value of a list of decimal digit characters. -/
def digitsToNat (cs : List Char) : Nat :=
  cs.foldl (fun acc c => acc * 10 + (c.toNat - 48)) 0

/-- The regex match of an underscore followed by exactly three digits at the
end of a basename; yields the parsed number or 0 when absent (the map step of
generateWeaklogId). -/
def seqSuffix (basename : String) : Nat :=
  let cs := basename.toList
  let n := cs.length
  if 4 ≤ n then
    let tail3 := cs.drop (n - 3)
    if tail3.all Char.isDigit && cs.getD (n - 4) ' ' = '_' then digitsToNat tail3
    else 0
  else 0

/-- String.prototype.padStart(3, 0) on a decimal rendering. -/
def pad3 (n : Nat) : String :=
  let s := toString n
  if s.length ≥ 3 then s else String.mk (List.replicate (3 - s.length) '0') ++ s

/-- The collision-avoidance loop of generateWeaklogId: up to 100 candidate
identifiers are tested for existence in the raw folder; the first free one is
returned, otherwise the generation fails. -/
def findFreeId (paths : List String) (rawFolder dateStr : String) (nextNum : Nat) :
    Nat → Nat → Except String String
  | 0, _ => Except.error "Failed to generate unique weaklog ID after 100 attempts"
  | fuel + 1, attempt =>
    let id := dateStr ++ "_" ++ pad3 (nextNum + attempt)
    if paths.contains (rawFolder ++ "/" ++ id ++ ".md") then
      findFreeId paths rawFolder dateStr nextNum fuel (attempt + 1)
    else Except.ok id

/-- FileManager.generateWeaklogId: scans the markdown files whose path starts
with the 01_Raw folder and whose basename starts with the current date
string, extracts their three-digit sequence suffixes, picks max plus one, and
probes candidates for existence in the 01_Raw folder only. -/
def generateWeaklogId (files : List MdFile) (folderPath dateStr : String) :
    Except String String :=
  let rawFolder := folderPath ++ "/01_Raw"
  let todays := files.filter (fun f =>
    strStarts f.path rawFolder && strStarts f.basename dateStr)
  let numbers := (todays.map (fun f => seqSuffix f.basename)).filter (fun n => n > 0)
  let nextNum := if numbers.length > 0 then numbers.foldl max 0 + 1 else 1
  findFreeId (files.map (fun f => f.path)) rawFolder dateStr nextNum 100 0

/-! ## Cooldown scheduler (CooldownManager, src/src/managers/CooldownManager.ts)

Entries persist date strings; here a date field holds the integer time value
its string denotes, or none when the string does not parse (Date.parse NaN).
registerEntry always writes freshly computed, valid values.  The single
current instant of one synchronous operation is injected as now. -/

/-- Milliseconds per calendar day (the scheduler adds cooldownDays calendar
days; daylight-saving shifts are outside the model). -/
def msPerDay : Int := 86400000

/-- One persisted cooldown entry. -/
structure CooldownEntry where
  weaklogId : String
  filePath : String
  createdAt : Option Int
  cooldownDays : Int
  readyAt : Option Int
deriving Repr, DecidableEq

/-- The persisted cooldown aggregate. -/
structure CooldownData where
  entries : List CooldownEntry
  lastChecked : Int
deriving Repr, DecidableEq

/-- CooldownManager.registerEntry (lines 120-147): computes readyAt once as
the creation instant plus the cooldown days, removes any prior entry with the
same id, and appends the new entry. -/
def registerEntry (data : CooldownData) (basename path : String)
    (cooldownDays : Int) (now : Int) : CooldownData :=
  let entry : CooldownEntry :=
    { weaklogId := basename, filePath := path, createdAt := some now,
      cooldownDays := cooldownDays, readyAt := some (now + cooldownDays * msPerDay) }
  { entries := data.entries.filter (fun e => e.weaklogId ≠ basename) ++ [entry],
    lastChecked := now }

/-- CooldownManager.unregisterEntry (lines 159-173): removes by id; an absent
id is only logged, never an error. -/
def unregisterEntry (data : CooldownData) (weaklogId : String) (now : Int) : CooldownData :=
  { entries := data.entries.filter (fun e => e.weaklogId ≠ weaklogId),
    lastChecked := now }

/-- The readiness test of getReadyEntries: new Date(readyAt) <= now, which is
false when the stored string does not parse (NaN comparison). -/
def readyAtLeNow (readyAt : Option Int) (now : Int) : Bool :=
  match readyAt with
  | some t => t ≤ now
  | none => false

/-- CooldownManager.getReadyEntries (lines 185-193): the entries whose
readyAt is a valid date at or before now. -/
def getReadyEntries (data : CooldownData) (now : Int) : List CooldownEntry :=
  data.entries.filter (fun e => readyAtLeNow e.readyAt now)

/-- RawLogModal.validateInput (src/src/views/RawLogModal.ts lines 210-232):
content at least 10 characters, cooldown days in 1..365. -/
def validateInput (content : String) (cooldownDays : Int) : Bool :=
  if content.length = 0 then false
  else if content.length < 10 then false
  else if cooldownDays < 1 || cooldownDays > 365 then false
  else true

/-! ## Theorems -/

/-- Claim C6: for every valid creation (content of at least 10 characters,
cooldownDays between 1 and 365), the cooldown entry registered in the
scheduler has readyAt equal to createdAt plus cooldownDays exactly, computed
once at registration time: the entry appended by registerEntry stores
createdAt = now and readyAt = now + cooldownDays days. -/
theorem registerEntry_readyAt_exact
    (data : CooldownData) (basename path content : String) (cd now : Int)
    (_hvalid : validateInput content cd = true) :
    (registerEntry data basename path cd now).entries.getLast? =
      some { weaklogId := basename, filePath := path, createdAt := some now,
             cooldownDays := cd, readyAt := some (now + cd * msPerDay) } := by
  simp [registerEntry]

/-- Witness for registerEntry_readyAt_exact at a concrete valid creation. -/
theorem registerEntry_readyAt_exact_witness :
    validateInput "I keep avoiding hard conversations at work" 7 = true ∧
    (registerEntry { entries := [], lastChecked := 0 } "2026-01-27_001"
        "Weaklog/02_Cooling/2026-01-27_001.md" 7 1000).entries.getLast? =
      some { weaklogId := "2026-01-27_001",
             filePath := "Weaklog/02_Cooling/2026-01-27_001.md",
             createdAt := some 1000, cooldownDays := 7,
             readyAt := some (1000 + 7 * msPerDay) } :=
  ⟨by decide,
   registerEntry_readyAt_exact { entries := [], lastChecked := 0 } "2026-01-27_001"
     "Weaklog/02_Cooling/2026-01-27_001.md"
     "I keep avoiding hard conversations at work" 7 1000 (by decide)⟩

/-- Claim C9: unregisterEntry is idempotent on the stored entry set, and an
id absent from the index leaves the entries untouched (the absence is only
logged, never an error; the embedding is a total function). -/
theorem unregisterEntry_idempotent
    (data : CooldownData) (id : String) (t1 t2 : Int) :
    (unregisterEntry (unregisterEntry data id t1) id t2).entries =
      (unregisterEntry data id t1).entries ∧
    (id ∉ data.entries.map (fun e => e.weaklogId) →
      (unregisterEntry data id t1).entries = data.entries) := by
  constructor
  · simp [unregisterEntry, List.filter_filter]
  · intro habsent
    simp only [unregisterEntry]
    apply List.filter_eq_self.mpr
    intro e he
    simp only [ne_eq, decide_eq_true_eq]
    intro hcontra
    exact habsent (List.mem_map.mpr ⟨e, he, hcontra⟩)

/-- Sample cooldown index used by the unregisterEntry witness. -/
def sampleIndexC9 : CooldownData :=
  { entries :=
      [{ weaklogId := "2026-01-27_001", filePath := "p",
         createdAt := some 0, cooldownDays := 7, readyAt := some 1 }],
    lastChecked := 0 }

/-- Witness for unregisterEntry_idempotent at a concrete index state with
the id absent. -/
theorem unregisterEntry_idempotent_witness :
    "gone" ∉ sampleIndexC9.entries.map (fun e => e.weaklogId) ∧
    (unregisterEntry sampleIndexC9 "gone" 5).entries = sampleIndexC9.entries :=
  ⟨by decide, (unregisterEntry_idempotent sampleIndexC9 "gone" 5 6).2 (by decide)⟩

/-- Claim C10: every entry returned by getReadyEntries has a readyAt that
parses to a valid instant at or before now; an entry whose readyAt does not
parse (NaN comparison) is never reported ready; and the returned entries are
a sublist of the index, preserving its order. -/
theorem getReadyEntries_valid_and_ordered (data : CooldownData) (now : Int) :
    (∀ e ∈ getReadyEntries data now, ∃ t, e.readyAt = some t ∧ t ≤ now) ∧
    (∀ e ∈ data.entries, e.readyAt = none → e ∉ getReadyEntries data now) ∧
    (getReadyEntries data now).Sublist data.entries := by
  refine ⟨?_, ?_, List.filter_sublist data.entries⟩
  · intro e he
    have hp := (List.mem_filter.mp he).2
    cases hr : e.readyAt with
    | none => rw [hr] at hp; simp [readyAtLeNow] at hp
    | some t =>
      rw [hr] at hp
      simp only [readyAtLeNow, decide_eq_true_eq] at hp
      exact ⟨t, rfl, hp⟩
  · intro e _ hnone hmem
    have hp := (List.mem_filter.mp hmem).2
    rw [hnone] at hp
    simp [readyAtLeNow] at hp

/-- Sample cooldown index used by the getReadyEntries witness: one ready
entry, one unparseable date, one pending entry. -/
def sampleIndexC10 : CooldownData :=
  { entries :=
      [{ weaklogId := "a", filePath := "pa", createdAt := some 0,
         cooldownDays := 1, readyAt := some 50 },
       { weaklogId := "b", filePath := "pb", createdAt := some 0,
         cooldownDays := 1, readyAt := none },
       { weaklogId := "c", filePath := "pc", createdAt := some 0,
         cooldownDays := 1, readyAt := some 200 }],
    lastChecked := 0 }

/-- Witness for getReadyEntries_valid_and_ordered on a concrete index with a
ready entry, a pending entry and an unparseable date. -/
theorem getReadyEntries_valid_and_ordered_witness :
    ∀ e ∈ getReadyEntries sampleIndexC10 100, ∃ t, e.readyAt = some t ∧ t ≤ 100 :=
  (getReadyEntries_valid_and_ordered sampleIndexC10 100).1

lemma boolToNat_le_one (b : Bool) : b.toNat ≤ 1 := by cases b <;> simp

lemma countPassed_le_four (c : TriageChecks) : countPassed c ≤ 4 := by
  unfold countPassed
  have h1 := boolToNat_le_one c.hasSpecifics.pass
  have h2 := boolToNat_le_one c.canBeCorePhrase.pass
  have h3 := boolToNat_le_one c.isTransferable.pass
  have h4 := boolToNat_le_one c.isNonHarmful.pass
  omega

lemma calcRec_spec (score : Nat) (h4 : score ≤ 4) :
    (calculateRecommendation score = Recommendation.adopt ↔ score = 4) ∧
    (calculateRecommendation score = Recommendation.review ↔ (score = 2 ∨ score = 3)) ∧
    (calculateRecommendation score = Recommendation.reject ↔ (score = 0 ∨ score = 1)) := by
  interval_cases score <;> simp [calculateRecommendation]

lemma parseTriage_fail_eq_fallback (j : Option JsValue) (content ts : String)
    (hfail : triageParseOk j = false) :
    parseTriageResponse j content ts = createFallbackResult content ts := by
  cases j with
  | none => rfl
  | some v =>
    simp only [triageParseOk, Bool.and_eq_false_iff] at hfail
    simp only [parseTriageResponse]
    cases hc : truthy (getMember v "checks") with
    | false => simp
    | true =>
      rw [if_pos rfl]
      rcases hfail with hfail | hfail
      · rw [hc] at hfail; exact absurd hfail (by simp)
      · cases hm : getMember v "coreQuestion" with
        | none => simp
        | some w =>
          cases w <;> simp
          rename_i s
          rw [hm] at hfail
          simp only [decide_eq_false_iff_not, not_not] at hfail
          simp [hfail]

lemma parseTriage_ok_shape (j : Option JsValue) (content ts : String)
    (hok : triageParseOk j = true) :
    (parseTriageResponse j content ts).recommendation =
      calculateRecommendation (parseTriageResponse j content ts).score := by
  cases j with
  | none => simp [triageParseOk] at hok
  | some v =>
    simp only [triageParseOk, Bool.and_eq_true] at hok
    obtain ⟨hc, hq⟩ := hok
    simp only [parseTriageResponse, hc, if_true]
    cases hm : getMember v "coreQuestion" with
    | none => rw [hm] at hq; simp at hq
    | some w =>
      rw [hm] at hq
      cases w <;> simp at hq
      rename_i s
      simp [hq, buildTriageResult]

lemma parseTriage_score_count (j : Option JsValue) (content ts : String) :
    (parseTriageResponse j content ts).score =
      countPassed (parseTriageResponse j content ts).checks := by
  cases j with
  | none => simp [parseTriageResponse, createFallbackResult, countPassed]
  | some v =>
    simp only [parseTriageResponse]
    cases hc : truthy (getMember v "checks") with
    | false => simp [createFallbackResult, countPassed]
    | true =>
      simp only [if_true]
      cases hm : getMember v "coreQuestion" with
      | none => simp [createFallbackResult, countPassed]
      | some w =>
        cases w <;> simp [createFallbackResult, countPassed, buildTriageResult]
        rename_i s
        cases hs : decide (s = "") <;>
          simp_all [createFallbackResult, countPassed, buildTriageResult]

lemma getMember_append_scoreRec (fields : List (String × JsValue)) (sc rec : JsValue)
    (k : String) (h1 : k ≠ "score") (h2 : k ≠ "recommendation") :
    getMember (JsValue.obj (fields ++ [("score", sc), ("recommendation", rec)])) k =
      getMember (JsValue.obj fields) k := by
  have e1 : (k == "score") = false := beq_eq_false_iff_ne.mpr h1
  have e2 : (k == "recommendation") = false := beq_eq_false_iff_ne.mpr h2
  simp [getMember, List.reverse_append, List.lookup, e1, e2]

/-- Claim C1 (amended): every parsed triage result has score equal to the
count of true checks; for well-formed responses the recommendation is derived
from the recomputed score (adopt iff 4, review iff 2 or 3, reject iff 0 or
1) regardless of any score or recommendation member the model supplied; the
fallback result keeps score = count of true checks (= 1) but fixes the
recommendation to review. -/
theorem triage_score_recommendation_consistency
    (j : Option JsValue) (content ts : String)
    (fields : List (String × JsValue)) (sc rec : JsValue) :
    ((parseTriageResponse j content ts).score =
      countPassed (parseTriageResponse j content ts).checks) ∧
    (triageParseOk j = true →
      (((parseTriageResponse j content ts).recommendation = Recommendation.adopt ↔
          (parseTriageResponse j content ts).score = 4) ∧
       ((parseTriageResponse j content ts).recommendation = Recommendation.review ↔
          ((parseTriageResponse j content ts).score = 2 ∨
           (parseTriageResponse j content ts).score = 3)) ∧
       ((parseTriageResponse j content ts).recommendation = Recommendation.reject ↔
          ((parseTriageResponse j content ts).score = 0 ∨
           (parseTriageResponse j content ts).score = 1)))) ∧
    (triageParseOk j = false →
      (parseTriageResponse j content ts).score = 1 ∧
      (parseTriageResponse j content ts).recommendation = Recommendation.review) ∧
    (parseTriageResponse
        (some (JsValue.obj (fields ++ [("score", sc), ("recommendation", rec)]))) content ts =
      parseTriageResponse (some (JsValue.obj fields)) content ts) := by
  refine ⟨parseTriage_score_count j content ts, ?_, ?_, ?_⟩
  · intro hok
    have hrec := parseTriage_ok_shape j content ts hok
    have hcount := parseTriage_score_count j content ts
    have hle : (parseTriageResponse j content ts).score ≤ 4 := by
      rw [hcount]; exact countPassed_le_four _
    rw [hrec]
    exact calcRec_spec _ hle
  · intro hfail
    rw [parseTriage_fail_eq_fallback j content ts hfail]
    exact ⟨rfl, rfl⟩
  · have hc := getMember_append_scoreRec fields sc rec "checks" (by decide) (by decide)
    have hq := getMember_append_scoreRec fields sc rec "coreQuestion" (by decide) (by decide)
    simp only [parseTriageResponse, hc, hq]

def sampleTriageJson : Option JsValue :=
  some (JsValue.obj
    [("checks", JsValue.obj
        [("hasSpecifics", JsValue.obj [("pass", JsValue.bool true), ("reason", JsValue.str "concrete scene")]),
         ("canBeCorePhrase", JsValue.obj [("pass", JsValue.bool true), ("reason", JsValue.str "clear theme")]),
         ("isTransferable", JsValue.obj [("pass", JsValue.bool true), ("reason", JsValue.str "relatable")]),
         ("isNonHarmful", JsValue.obj [("pass", JsValue.bool true), ("reason", JsValue.str "constructive")])]),
     ("coreQuestion", JsValue.str "Why do I avoid conflict?"),
     ("score", JsValue.num 0),
     ("recommendation", JsValue.str "reject")])

theorem triage_score_recommendation_consistency_witness :
    triageParseOk sampleTriageJson = true ∧
    ((parseTriageResponse sampleTriageJson "content here" "ts").recommendation = Recommendation.adopt ↔
      (parseTriageResponse sampleTriageJson "content here" "ts").score = 4) :=
  ⟨rfl, ((triage_score_recommendation_consistency sampleTriageJson "content here" "ts"
      [] JsValue.jsNull JsValue.jsNull).2.1 rfl).1⟩

theorem triage_fallback_breaks_recommendation_derivation :
    (parseTriageResponse none "I keep avoiding hard conversations" "ts").score = 1 ∧
    (parseTriageResponse none "I keep avoiding hard conversations" "ts").recommendation ≠
      Recommendation.reject :=
  ⟨rfl, by decide⟩

theorem triage_parse_failure_returns_fallback
    (j : Option JsValue) (content ts : String)
    (_hnb : jsTrim content ≠ "")
    (hfail : triageParseOk j = false) :
    parseTriageResponse j content ts = createFallbackResult content ts ∧
    (createFallbackResult content ts).recommendation = Recommendation.review ∧
    (createFallbackResult content ts).score = 1 ∧
    (createFallbackResult content ts).checks.hasSpecifics =
      { pass := false, reason := "Analysis failed - please review" } ∧
    (createFallbackResult content ts).checks.canBeCorePhrase =
      { pass := false, reason := "Analysis failed - please review" } ∧
    (createFallbackResult content ts).checks.isTransferable =
      { pass := false, reason := "Analysis failed - please review" } ∧
    (createFallbackResult content ts).checks.isNonHarmful =
      { pass := true, reason := "Assumed safe" } ∧
    (createFallbackResult content ts).coreQuestion = content.take 37 ++ "..." :=
  ⟨parseTriage_fail_eq_fallback j content ts hfail, rfl, rfl, rfl, rfl, rfl, rfl, rfl⟩

theorem triage_parse_failure_returns_fallback_witness :
    jsTrim "I keep avoiding hard conversations at work" ≠ "" ∧
    parseTriageResponse none "I keep avoiding hard conversations at work" "ts" =
      createFallbackResult "I keep avoiding hard conversations at work" "ts" :=
  ⟨by decide,
   (triage_parse_failure_returns_fallback none "I keep avoiding hard conversations at work"
      "ts" (by decide) rfl).1⟩

lemma cleanQuestions_length_le (xs : List JsValue) :
    (cleanQuestions xs).length ≤ xs.length :=
  le_trans (List.length_filter_le _ _) (List.length_filterMap_le _ _)

lemma cleanQuestions_mem_ne_empty (xs : List JsValue) (q : String)
    (h : q ∈ cleanQuestions xs) : q ≠ "" := by
  have := (List.mem_filter.mp h).2
  simpa using this

lemma parseSynthesis_cases (j : Option JsValue) (lang : ResponseLanguage) (ts : String) :
    (synthesisParseOk j = false ∧
      parseSynthesisResponse j lang ts = createFallbackGuide lang ts) ∨
    (synthesisParseOk j = true ∧ ∃ v xs, j = some v ∧
      getMember v "questions" = some (JsValue.arr xs) ∧
      3 ≤ (cleanQuestions xs).length ∧ xs.length ≤ 5 ∧
      parseSynthesisResponse j lang ts =
        { questions := (cleanQuestions xs).take 5,
          suggestedTone := validateTone (getMember v "suggestedTone"),
          timestamp := ts }) := by
  cases j with
  | none => exact Or.inl ⟨rfl, rfl⟩
  | some v =>
    cases hm : getMember v "questions" with
    | none =>
      refine Or.inl ⟨?_, ?_⟩ <;> simp [synthesisParseOk, parseSynthesisResponse, hm]
    | some w =>
      cases w with
      | arr xs =>
        by_cases hlen : xs.length < 3 ∨ xs.length > 5
        · have hb : (decide (xs.length < 3) || decide (xs.length > 5)) = true := by
            rcases hlen with h | h <;> simp [h]
          refine Or.inl ⟨?_, ?_⟩
          · simp only [synthesisParseOk, hm]
            simp
            omega
          · simp only [parseSynthesisResponse, hm]
            rw [if_pos hb]
        · push_neg at hlen
          obtain ⟨h3, h5⟩ := hlen
          by_cases hcl : (cleanQuestions xs).length < 3
          · refine Or.inl ⟨?_, ?_⟩
            · simp only [synthesisParseOk, hm]
              simp
              omega
            · simp only [parseSynthesisResponse, hm]
              rw [if_neg ?_, if_pos hcl]
              simp
              omega
          · push_neg at hcl
            refine Or.inr ⟨?_, v, xs, rfl, hm, hcl, by omega, ?_⟩
            · simp only [synthesisParseOk, hm]
              simp
              omega
            · simp only [parseSynthesisResponse, hm]
              rw [if_neg ?_, if_neg (by omega)]
              simp
              omega
      | jsNull => refine Or.inl ⟨?_, ?_⟩ <;> simp [synthesisParseOk, parseSynthesisResponse, hm]
      | bool b => refine Or.inl ⟨?_, ?_⟩ <;> simp [synthesisParseOk, parseSynthesisResponse, hm]
      | num n => refine Or.inl ⟨?_, ?_⟩ <;> simp [synthesisParseOk, parseSynthesisResponse, hm]
      | str s => refine Or.inl ⟨?_, ?_⟩ <;> simp [synthesisParseOk, parseSynthesisResponse, hm]
      | obj fs => refine Or.inl ⟨?_, ?_⟩ <;> simp [synthesisParseOk, parseSynthesisResponse, hm]

lemma fallbackQuestions_facts (lang : ResponseLanguage) :
    (getFallbackQuestions lang).length = 4 ∧
    ∀ q ∈ getFallbackQuestions lang, q ≠ "" := by
  cases lang <;> exact ⟨rfl, by decide⟩

lemma fallbackGuide_facts (lang : ResponseLanguage) (ts : String) :
    (createFallbackGuide lang ts).questions.length = 4 ∧
    (createFallbackGuide lang ts).suggestedTone = "reflective" ∧
    ∀ q ∈ (createFallbackGuide lang ts).questions, q ≠ "" :=
  ⟨(fallbackQuestions_facts lang).1, rfl, (fallbackQuestions_facts lang).2⟩

/-- Claim C3: for every model response (well-formed or malformed) and every
language, the parsed synthesis guide has between 3 and 5 questions, each
nonempty with leading list markers stripped (the successful branch returns
exactly the cleaned survivors, capped at 5); whenever parsing or validation
fails the result is the fixed language-appropriate fallback of exactly 4
generic questions with tone reflective; the parse step is a total function,
so no exception reaches its caller. -/
theorem synthesis_guide_question_count_bounds
    (j : Option JsValue) (lang : ResponseLanguage) (ts : String) :
    (3 ≤ (parseSynthesisResponse j lang ts).questions.length ∧
      (parseSynthesisResponse j lang ts).questions.length ≤ 5) ∧
    (∀ q ∈ (parseSynthesisResponse j lang ts).questions, q ≠ "") ∧
    (synthesisParseOk j = false →
      parseSynthesisResponse j lang ts = createFallbackGuide lang ts ∧
      (createFallbackGuide lang ts).questions.length = 4 ∧
      (createFallbackGuide lang ts).suggestedTone = "reflective") ∧
    (synthesisParseOk j = true →
      ∃ v xs, j = some v ∧ getMember v "questions" = some (JsValue.arr xs) ∧
        (parseSynthesisResponse j lang ts).questions = (cleanQuestions xs).take 5) := by
  obtain ⟨hfb1, hfb2, hfb3⟩ := fallbackGuide_facts lang ts
  rcases parseSynthesis_cases j lang ts with ⟨hok, heq⟩ | ⟨hok, v, xs, hj, hm, hcl, hx5, heq⟩
  · rw [heq]
    refine ⟨⟨by omega, by omega⟩, hfb3, fun _ => ⟨rfl, hfb1, hfb2⟩, fun hcontra => ?_⟩
    rw [hok] at hcontra
    exact absurd hcontra (by simp)
  · rw [heq]
    dsimp only
    have hlen : ((cleanQuestions xs).take 5).length = min 5 (cleanQuestions xs).length :=
      List.length_take 5 (cleanQuestions xs)
    refine ⟨⟨by omega, by omega⟩, ?_, fun hcontra => ?_, fun _ => ⟨v, xs, hj, hm, rfl⟩⟩
    · intro q hq
      exact cleanQuestions_mem_ne_empty xs q (List.mem_of_mem_take hq)
    · rw [hok] at hcontra
      exact absurd hcontra (by simp)

/-- A malformed synthesis response: only two questions. -/
def sampleBadSynthesis : Option JsValue :=
  some (JsValue.obj [("questions", JsValue.arr [JsValue.str "Q1?", JsValue.str "Q2?"])])

/-- Witness for synthesis_guide_question_count_bounds: a two-question
response fails validation and yields the fallback guide. -/
theorem synthesis_guide_question_count_bounds_witness :
    synthesisParseOk sampleBadSynthesis = false ∧
    parseSynthesisResponse sampleBadSynthesis ResponseLanguage.english "ts" =
      createFallbackGuide ResponseLanguage.english "ts" :=
  ⟨by decide,
   ((synthesis_guide_question_count_bounds sampleBadSynthesis
      ResponseLanguage.english "ts").2.2.1 (by decide)).1⟩

lemma callAPIFrom_attempts_le (react : String → String → RetryAction)
    (outcomes : Nat → Outcome) :
    ∀ fuel attempt delays,
      (callAPIFrom react outcomes attempt fuel delays).attemptsMade ≤ attempt + fuel - 1 := by
  intro fuel
  induction fuel with
  | zero =>
    intro attempt delays
    simp [callAPIFrom, CallResult.attemptsMade]
  | succ f ih =>
    intro attempt delays
    simp only [callAPIFrom]
    cases ho : outcomes attempt with
    | success t =>
      dsimp only [CallResult.attemptsMade]
      omega
    | failure nm msg =>
      dsimp only
      cases hr : react nm msg with
      | stop m =>
        dsimp only [CallResult.attemptsMade]
        omega
      | backoff d em =>
        dsimp only
        by_cases hf : f = 0
        · rw [if_pos hf]
          dsimp only [CallResult.attemptsMade]
          omega
        · rw [if_neg hf]
          have := ih (attempt + 1) (delays ++ [d attempt])
          omega

/-- Claim C4: each cited adapter callAPI makes at most 3 attempts; an
auth-classified failure is raised immediately with zero retries and zero
backoff delay; a rate-limit failure before the last attempt is retried after
the doubled-exponential backoff base times 2 to the attempt times 2; a
timeout failure before the last attempt is retried after base times 2 to the
attempt minus one; and the injected sequence rate-limit, rate-limit, success
yields the success value after exactly 2 backoff delays following the
doubled-exponential formula. -/
theorem adapter_retry_backoff_spec
    (outcomes : Nat → Outcome) (nm m t : String) :
    (anthropicCallAPI outcomes).attemptsMade ≤ 3 ∧
    (openaiCallAPI outcomes).attemptsMade ≤ 3 ∧
    (outcomes 1 = Outcome.failure nm m → anthropicIsAuth m = true →
      anthropicCallAPI outcomes =
        CallResult.err "Invalid API key. Please check your Anthropic API key in settings." [] 1) ∧
    (outcomes 1 = Outcome.failure nm m → openaiIsAuth m = true →
      openaiCallAPI outcomes =
        CallResult.err "Invalid API key. Please check your OpenAI API key in settings." [] 1) ∧
    (∀ a fuel delays, 1 ≤ fuel →
      outcomes a = Outcome.failure nm m →
      anthropicIsAuth m = false → anthropicIsRateLimit m = true →
      callAPIFrom anthropicReact outcomes a (fuel + 1) delays =
        callAPIFrom anthropicReact outcomes (a + 1) fuel (delays ++ [1000 * 2 ^ a * 2])) ∧
    (∀ a fuel delays, 1 ≤ fuel →
      outcomes a = Outcome.failure nm m →
      anthropicIsAuth m = false → anthropicIsRateLimit m = false →
      isTimeoutMessage m = true →
      callAPIFrom anthropicReact outcomes a (fuel + 1) delays =
        callAPIFrom anthropicReact outcomes (a + 1) fuel (delays ++ [1000 * 2 ^ (a - 1)])) ∧
    (outcomes 1 = Outcome.failure nm "429" → outcomes 2 = Outcome.failure nm "429" →
      outcomes 3 = Outcome.success t →
      anthropicCallAPI outcomes =
        CallResult.ok t [rateLimitDelay 1000 1, rateLimitDelay 1000 2] 3 ∧
      openaiCallAPI outcomes =
        CallResult.ok t [rateLimitDelay 1000 1, rateLimitDelay 1000 2] 3 ∧
      rateLimitDelay 1000 1 = 1000 * 2 ^ 1 * 2 ∧
      rateLimitDelay 1000 2 = 1000 * 2 ^ 2 * 2) := by
  refine ⟨?_, ?_, ?_, ?_, ?_, ?_, ?_⟩
  · exact le_trans (callAPIFrom_attempts_le anthropicReact outcomes 3 1 []) (by omega)
  · exact le_trans (callAPIFrom_attempts_le openaiReact outcomes 3 1 []) (by omega)
  · intro h1 hauth
    simp [anthropicCallAPI, callAPIFrom, h1, anthropicReact, hauth]
  · intro h1 hauth
    simp [openaiCallAPI, callAPIFrom, h1, openaiReact, hauth]
  · intro a fuel delays hfuel ha hauth hrate
    cases fuel with
    | zero => omega
    | succ f =>
      simp [callAPIFrom, ha, anthropicReact, hauth, hrate, rateLimitDelay]
  · intro a fuel delays hfuel ha hauth hrate htime
    cases fuel with
    | zero => omega
    | succ f =>
      simp [callAPIFrom, ha, anthropicReact, hauth, hrate, htime, standardDelay]
  · intro h1 h2 h3
    have ha : anthropicIsAuth "429" = false := by decide
    have hr : anthropicIsRateLimit "429" = true := by decide
    have ha2 : openaiIsAuth "429" = false := by decide
    have hr2 : openaiIsRateLimit "429" = true := by decide
    refine ⟨?_, ?_, rfl, rfl⟩
    · simp [anthropicCallAPI, callAPIFrom, h1, h2, h3, anthropicReact, ha, hr,
        rateLimitDelay]
    · simp [openaiCallAPI, callAPIFrom, h1, h2, h3, openaiReact, ha2, hr2,
        rateLimitDelay]

/-- Injected outcome sequence rate-limit, rate-limit, success. -/
def rateRateSuccess : Nat → Outcome := fun n =>
  if n = 1 then Outcome.failure "Error" "429"
  else if n = 2 then Outcome.failure "Error" "429"
  else Outcome.success "generated text"

/-- Witness for adapter_retry_backoff_spec on the injected sequence
rate-limit, rate-limit, success. -/
theorem adapter_retry_backoff_spec_witness :
    anthropicCallAPI rateRateSuccess =
      CallResult.ok "generated text" [rateLimitDelay 1000 1, rateLimitDelay 1000 2] 3 :=
  ((adapter_retry_backoff_spec rateRateSuccess "Error" "x" "generated text").2.2.2.2.2.2
    rfl rfl rfl).1

lemma listStarts_append (pat l1 l2 : List Char) (h : listStarts pat l1 = true) :
    listStarts pat (l1 ++ l2) = true := by
  induction pat generalizing l1 with
  | nil => simp [listStarts]
  | cons a as ih =>
    cases l1 with
    | nil => simp [listStarts] at h
    | cons b bs =>
      simp only [listStarts, Bool.and_eq_true] at h ⊢
      exact ⟨h.1, ih bs h.2⟩

lemma listInfix_append (pat l1 l2 : List Char) (h : listInfix pat l1 = true) :
    listInfix pat (l1 ++ l2) = true := by
  induction l1 with
  | nil =>
    cases pat with
    | nil => cases l2 <;> simp [listInfix, listStarts]
    | cons a as => simp [listInfix, listStarts] at h
  | cons c cs ih =>
    simp only [listInfix, Bool.or_eq_true] at h
    rcases h with h | h
    · simp only [List.cons_append, listInfix, Bool.or_eq_true]
      exact Or.inl (listStarts_append pat (c :: cs) l2 h)
    · simp only [List.cons_append, listInfix, Bool.or_eq_true]
      exact Or.inr (ih h)

lemma strContains_append_left (a b pat : String) (h : strContains a pat = true) :
    strContains (a ++ b) pat = true := by
  simpa [strContains] using listInfix_append pat.toList a.toList b.toList (by simpa [strContains] using h)

/-- All three attempts fail rate-limited. -/
def allRateLimited : Nat → Outcome := fun _ => Outcome.failure "Error" "429"

/-- Counterexample to claim C8: exhausting the retries on rate-limit
failures raises the fixed message Rate limit exceeded, which does not name
the attempt count (it contains no digit 3 at all). -/
theorem rate_limit_exhaustion_lacks_attempt_count :
    anthropicCallAPI allRateLimited =
      CallResult.err "Rate limit exceeded. Please try again later."
        [rateLimitDelay 1000 1, rateLimitDelay 1000 2] 3 ∧
    strContains "Rate limit exceeded. Please try again later." "3" = false :=
  ⟨by decide, by decide⟩

/-- Claim C8 (amended): when an adapter exhausts its retries, the error
names the attempt count only for the other/network class (API call failed
after 3 attempts); the rate-limit and timeout exhaustion errors are fixed
messages that do not contain the attempt count.  Stated for the two cited
adapters. -/
theorem retry_exhaustion_message_spec
    (outcomes : Nat → Outcome) (nm m1 m2 m3 : String)
    (h1 : outcomes 1 = Outcome.failure nm m1)
    (h2 : outcomes 2 = Outcome.failure nm m2)
    (h3 : outcomes 3 = Outcome.failure nm m3) :
    ((∀ m ∈ [m1, m2, m3], anthropicIsAuth m = false ∧ anthropicIsRateLimit m = false ∧
        isTimeoutMessage m = false) →
      anthropicCallAPI outcomes =
        CallResult.err ("API call failed after 3 attempts: " ++ m3)
          [standardDelay 1000 1, standardDelay 1000 2] 3 ∧
      strContains ("API call failed after 3 attempts: " ++ m3) "3" = true) ∧
    ((∀ m ∈ [m1, m2, m3], anthropicIsAuth m = false ∧ anthropicIsRateLimit m = true) →
      anthropicCallAPI outcomes =
        CallResult.err "Rate limit exceeded. Please try again later."
          [rateLimitDelay 1000 1, rateLimitDelay 1000 2] 3 ∧
      strContains "Rate limit exceeded. Please try again later." "3" = false) ∧
    ((∀ m ∈ [m1, m2, m3], anthropicIsAuth m = false ∧ anthropicIsRateLimit m = false ∧
        isTimeoutMessage m = true) →
      anthropicCallAPI outcomes =
        CallResult.err "API request timed out. Please check your connection and try again."
          [standardDelay 1000 1, standardDelay 1000 2] 3 ∧
      strContains "API request timed out. Please check your connection and try again." "3" = false) ∧
    ((∀ m ∈ [m1, m2, m3], openaiIsAuth m = false ∧ openaiIsRateLimit m = false ∧
        isTimeoutMessage m = false ∧ strContains m "insufficient_quota" = false) →
      openaiCallAPI outcomes =
        CallResult.err ("API call failed after 3 attempts: " ++ m3)
          [standardDelay 1000 1, standardDelay 1000 2] 3 ∧
      strContains ("API call failed after 3 attempts: " ++ m3) "3" = true) ∧
    ((∀ m ∈ [m1, m2, m3], openaiIsAuth m = false ∧ openaiIsRateLimit m = true) →
      openaiCallAPI outcomes =
        CallResult.err "Rate limit exceeded. Please try again later."
          [rateLimitDelay 1000 1, rateLimitDelay 1000 2] 3 ∧
      strContains "Rate limit exceeded. Please try again later." "3" = false) := by
  have hname : strContains "API call failed after 3 attempts: " "3" = true := by decide
  refine ⟨?_, ?_, ?_, ?_, ?_⟩
  · intro hcl
    obtain ⟨a1, r1, t1⟩ := hcl m1 (by simp)
    obtain ⟨a2, r2, t2⟩ := hcl m2 (by simp)
    obtain ⟨a3, r3, t3⟩ := hcl m3 (by simp)
    refine ⟨?_, strContains_append_left _ m3 "3" hname⟩
    simp [anthropicCallAPI, callAPIFrom, h1, h2, h3, anthropicReact,
      a1, r1, t1, a2, r2, t2, a3, r3, t3, standardDelay]
  · intro hcl
    obtain ⟨a1, r1⟩ := hcl m1 (by simp)
    obtain ⟨a2, r2⟩ := hcl m2 (by simp)
    obtain ⟨a3, r3⟩ := hcl m3 (by simp)
    refine ⟨?_, by decide⟩
    simp [anthropicCallAPI, callAPIFrom, h1, h2, h3, anthropicReact,
      a1, r1, a2, r2, a3, r3, rateLimitDelay]
  · intro hcl
    obtain ⟨a1, r1, t1⟩ := hcl m1 (by simp)
    obtain ⟨a2, r2, t2⟩ := hcl m2 (by simp)
    obtain ⟨a3, r3, t3⟩ := hcl m3 (by simp)
    refine ⟨?_, by decide⟩
    simp [anthropicCallAPI, callAPIFrom, h1, h2, h3, anthropicReact,
      a1, r1, t1, a2, r2, t2, a3, r3, t3, standardDelay]
  · intro hcl
    obtain ⟨a1, r1, t1, q1⟩ := hcl m1 (by simp)
    obtain ⟨a2, r2, t2, q2⟩ := hcl m2 (by simp)
    obtain ⟨a3, r3, t3, q3⟩ := hcl m3 (by simp)
    refine ⟨?_, strContains_append_left _ m3 "3" hname⟩
    simp [openaiCallAPI, callAPIFrom, h1, h2, h3, openaiReact,
      a1, r1, t1, q1, a2, r2, t2, q2, a3, r3, t3, q3, standardDelay]
  · intro hcl
    obtain ⟨a1, r1⟩ := hcl m1 (by simp)
    obtain ⟨a2, r2⟩ := hcl m2 (by simp)
    obtain ⟨a3, r3⟩ := hcl m3 (by simp)
    refine ⟨?_, by decide⟩
    simp [openaiCallAPI, callAPIFrom, h1, h2, h3, openaiReact,
      a1, r1, a2, r2, a3, r3, rateLimitDelay]

/-- All three attempts fail with a generic network error. -/
def allNetworkFailed : Nat → Outcome := fun _ => Outcome.failure "Error" "socket hang up"

/-- Witness for retry_exhaustion_message_spec: a run of three network
failures surfaces the attempt-count-naming message. -/
theorem retry_exhaustion_message_spec_witness :
    anthropicCallAPI allNetworkFailed =
      CallResult.err ("API call failed after 3 attempts: " ++ "socket hang up")
        [standardDelay 1000 1, standardDelay 1000 2] 3 ∧
    strContains ("API call failed after 3 attempts: " ++ "socket hang up") "3" = true :=
  (retry_exhaustion_message_spec allNetworkFailed "Error"
      "socket hang up" "socket hang up" "socket hang up" rfl rfl rfl).1
    (by
      intro x hx
      simp only [List.mem_cons, List.not_mem_nil, or_false] at hx
      rcases hx with h | h | h <;> subst h <;> exact ⟨by decide, by decide, by decide⟩)

/-- A vault whose only entry of the day has already been moved to the
02_Cooling stage folder (the creation workflow moves every new entry there
immediately after creation). -/
def vaultWithCoolingEntry : List MdFile :=
  [{ path := "Weaklog/02_Cooling/2026-01-27_001.md", basename := "2026-01-27_001" }]

set_option maxRecDepth 8000 in
/-- Claim C5 (code bug): generateWeaklogId scans and probes only the 01_Raw
folder, so with the day entry 2026-01-27_001 residing in 02_Cooling it
returns the very same identifier again, violating the claimed
stage-location-independent uniqueness. -/
theorem generateWeaklogId_collides_across_stages :
    generateWeaklogId vaultWithCoolingEntry "Weaklog" "2026-01-27" =
      Except.ok "2026-01-27_001" ∧
    vaultWithCoolingEntry.map (fun f => f.basename) = ["2026-01-27_001"] :=
  ⟨rfl, rfl⟩

/-- Claim C7: createFromConfig selects the adapter matching the lowercased
provider tag, requiring an apiKey for the cloud providers and an endpoint
for Ollama (throwing otherwise), fails with an unknown-provider error on any
other tag, and the constructed client delegates all six operations to the
held adapter without branching on provider identity. -/
theorem createFromConfig_spec (providerType : String) (config : ProviderConfig) :
    (jsToLower providerType = "anthropic" →
      ((config.apiKey = none ∨ config.apiKey = some "") →
        createFromConfig providerType config =
          Except.error "Anthropic provider requires API key") ∧
      (∀ k, config.apiKey = some k → k ≠ "" →
        createFromConfig providerType config =
          Except.ok { provider := Provider.anthropic k config.model false })) ∧
    (jsToLower providerType = "openai" →
      ((config.apiKey = none ∨ config.apiKey = some "") →
        createFromConfig providerType config =
          Except.error "OpenAI provider requires API key") ∧
      (∀ k, config.apiKey = some k → k ≠ "" →
        createFromConfig providerType config =
          Except.ok { provider := Provider.openai k config.model false })) ∧
    (jsToLower providerType = "gemini" →
      ((config.apiKey = none ∨ config.apiKey = some "") →
        createFromConfig providerType config =
          Except.error "Gemini provider requires API key") ∧
      (∀ k, config.apiKey = some k → k ≠ "" →
        createFromConfig providerType config =
          Except.ok { provider := Provider.gemini k config.model false })) ∧
    (jsToLower providerType = "ollama" →
      ((config.endpoint = none ∨ config.endpoint = some "") →
        createFromConfig providerType config =
          Except.error "Ollama provider requires endpoint") ∧
      (∀ e, config.endpoint = some e → e ≠ "" →
        createFromConfig providerType config =
          Except.ok { provider := Provider.ollama (stripTrailingSlash e) config.model false })) ∧
    (jsToLower providerType ≠ "anthropic" → jsToLower providerType ≠ "openai" →
      jsToLower providerType ≠ "gemini" → jsToLower providerType ≠ "ollama" →
      createFromConfig providerType config =
        Except.error ("Unknown provider type: " ++ providerType)) ∧
    (∀ c : LLMClient,
      c.initClient = (c.provider.initClient).map (fun p => { provider := p }) ∧
      (∀ outcomes, LLMClient.callAPIWith outcomes c = c.provider.callAPIWith outcomes) ∧
      (∀ o, LLMClient.testConnectionWith o c = c.provider.testConnectionWith o) ∧
      (∀ f, LLMClient.availableModels f c = c.provider.availableModels f) ∧
      c.isReady = c.provider.isReady ∧
      c.modelOf = c.provider.modelOf ∧
      (∀ m, c.withModel m = { provider := c.provider.withModel m })) := by
  refine ⟨?_, ?_, ?_, ?_, ?_, ?_⟩
  · intro ht
    constructor
    · rintro (hk | hk) <;> simp [createFromConfig, ht, hk]
    · intro k hk hne
      simp [createFromConfig, ht, hk, hne]
  · intro ht
    constructor
    · rintro (hk | hk) <;> simp [createFromConfig, ht, hk]
    · intro k hk hne
      simp [createFromConfig, ht, hk, hne]
  · intro ht
    constructor
    · rintro (hk | hk) <;> simp [createFromConfig, ht, hk]
    · intro k hk hne
      simp [createFromConfig, ht, hk, hne]
  · intro ht
    constructor
    · rintro (hk | hk) <;> simp [createFromConfig, ht, hk]
    · intro e hk hne
      simp [createFromConfig, ht, hk, hne]
  · intro h1 h2 h3 h4
    simp [createFromConfig, h1, h2, h3, h4]
  · intro c
    exact ⟨rfl, fun _ => rfl, fun _ => rfl, fun _ => rfl, rfl, rfl, fun _ => rfl⟩


/-- Sample factory configuration for the witness. -/
def sampleConfig : ProviderConfig :=
  { apiKey := some "test-key-123", endpoint := none, model := "claude-3-5-sonnet-20241022" }

/-- Witness for createFromConfig_spec: a mixed-case Anthropic tag with a
present key constructs the Anthropic adapter. -/
theorem createFromConfig_spec_witness :
    createFromConfig "Anthropic" sampleConfig =
      Except.ok { provider :=
        Provider.anthropic "test-key-123" "claude-3-5-sonnet-20241022" false } :=
  ((createFromConfig_spec "Anthropic" sampleConfig).1 (by decide)).2
    "test-key-123" rfl (by decide)
